import Mathlib

/-!
Verification of the Shards kernels control plane against its specification.

The Python sources under `kernels/` are shallowly embedded as Lean
definitions: dataclasses become structures, methods become pure functions
(stateful methods return the updated state explicitly), and Python
exceptions become `Except` errors.  Machine-level concerns (SHA-256
internals, wall-clock time) are modelled as explicit parameters.

The module `kernels/common/codec.py` is not part of the provided sources
(only its callers are), so its two functions `serialize_deterministic`
and `serialize_for_audit` are modelled from the specification, as marked
in their doc comments.
-/

set_option autoImplicit false
set_option maxRecDepth 16384
set_option maxHeartbeats 1000000

namespace Kernels

/-! ## Python values

A small universe of Python values, large enough for the parameter
dictionaries, constraint dictionaries and tool-call payloads the claims
range over.  `vDict` models a Python `dict` as an association list
(Python dictionaries have no duplicate keys; lookups take the first
match, which coincides for duplicate-free lists).
-/

inductive PyValue where
  | vNone
  | vBool (b : Bool)
  | vInt (n : Int)
  | vStr (s : String)
  | vDict (kvs : List (String × PyValue))

/-- Modelled from the spec: `serialize_deterministic` of
`kernels/common/codec.py` (absent from the sources).  §4.1: mappings are
emitted with keys sorted lexicographically, strings UTF-8, integers
without superfluous zeros, booleans as `true`/`false`, null as `null`,
nested structures recurse.  Escaping of quote characters inside strings
is not pinned by the spec (§9 open question 3) and is not modelled; no
theorem below depends on it. -/
def quoteStr (s : String) : String := "\"" ++ s ++ "\""

/-- Insertion of one keyed entry into a list sorted by key (helper for
the sorted-key serialization of §4.1). -/
def insertByKey (p : String × PyValue) :
    List (String × PyValue) → List (String × PyValue)
  | [] => [p]
  | q :: rest =>
      if p.1 < q.1 then p :: q :: rest else q :: insertByKey p rest

/-- Sort an association list by key, lexicographically (§4.1). -/
def sortByKey : List (String × PyValue) → List (String × PyValue)
  | [] => []
  | p :: rest => insertByKey p (sortByKey rest)

theorem sizeOf_insertByKey (p : String × PyValue) (l : List (String × PyValue)) :
    sizeOf (insertByKey p l) = 1 + sizeOf p + sizeOf l := by
  induction l with
  | nil => simp [insertByKey]
  | cons q rest ih =>
      simp only [insertByKey]
      split <;> (simp; try omega)

theorem sizeOf_sortByKey (l : List (String × PyValue)) :
    sizeOf (sortByKey l) = sizeOf l := by
  induction l with
  | nil => rfl
  | cons p rest ih => simp [sortByKey, sizeOf_insertByKey, ih]; try omega

mutual

/-- Modelled from the spec: the canonical codec of §4.1
(`serialize_deterministic` in the absent `kernels/common/codec.py`). -/
def serializeDeterministic : PyValue → String
  | .vNone => "null"
  | .vBool true => "true"
  | .vBool false => "false"
  | .vInt n => toString n
  | .vStr s => quoteStr s
  | .vDict kvs => "\x7b" ++ serializeEntries (sortByKey kvs) ++ "\x7d"
termination_by v => sizeOf v
decreasing_by simp [sizeOf_sortByKey]; try omega

/-- Comma-joined `"key":value` fragments of a sorted association list. -/
def serializeEntries : List (String × PyValue) → String
  | [] => ""
  | [(k, v)] => quoteStr k ++ ":" ++ serializeDeterministic v
  | (k, v) :: p :: rest =>
      quoteStr k ++ ":" ++ serializeDeterministic v ++ "," ++
        serializeEntries (p :: rest)
termination_by l => sizeOf l
decreasing_by all_goals simp <;> omega

end

/-! ## Hashing (`kernels/common/hashing.py`)

`compute_hash_str` calls `hashlib.sha256` on the UTF-8 bytes and returns
the lower-case hex digest.  SHA-256 itself is an external library
primitive; it is modelled as an explicit function parameter `H`
throughout, so every theorem below quantifies over the hash function and
witnesses instantiate it with a concrete computable one.  Claims that
depend on collision freedom state that freedom as an explicit
hypothesis, mirroring the claim text.
-/

/-- `compute_chain_hash` of `kernels/common/hashing.py`:
`H(prev_hash ++ ":" ++ entry_data)` where `H` stands for the SHA-256
hex digest of the UTF-8 encoding. -/
def computeChainHash (H : String → String) (prevHash entryData : String) : String :=
  H (prevHash ++ ":" ++ entryData)

/-- `genesis_hash` of `kernels/common/hashing.py`: 64 zeros. -/
def genesisHash : String :=
  String.mk (List.replicate 64 '0')

/-! ## Audit entries and the replay verifier (`kernels/audit/replay.py`) -/

/-- An audit-ledger entry as consumed by `replay_and_verify`: the entry
dictionary of an exported bundle.  Optional fields are `null` in the
export and `None` after parsing, hence `Option String` here.  Decisions
and states arrive as their serialized string names. -/
structure AuditEntryData where
  prev_hash : String
  entry_hash : String
  request_id : String
  actor : String
  intent : String
  decision : String
  state_from : String
  state_to : String
  ts_ms : Nat
  tool_name : Option String
  params_hash : Option String
  evidence_hash : Option String
  error : Option String
  deriving DecidableEq, Repr

/-- An optional string serialized as a JSON value (absent fields are
`null`, §4.7). -/
def optField : Option String → String
  | Option.none => "null"
  | Option.some s => quoteStr s

/-- Modelled from the spec: `serialize_for_audit` of
`kernels/common/codec.py` (absent from the sources).  §4.7 step 2 with
the field list used by `replay_and_verify`: the canonical serialization
of the eleven hashed fields, keys sorted lexicographically, absent
fields as `null`. -/
def serializeForAudit (request_id actor intent decision state_from state_to : String)
    (ts_ms : Nat) (tool_name params_hash evidence_hash error : Option String) : String :=
  "\x7b\"actor\":" ++ quoteStr actor ++
  ",\"decision\":" ++ quoteStr decision ++
  ",\"error\":" ++ optField error ++
  ",\"evidence_hash\":" ++ optField evidence_hash ++
  ",\"intent\":" ++ quoteStr intent ++
  ",\"params_hash\":" ++ optField params_hash ++
  ",\"request_id\":" ++ quoteStr request_id ++
  ",\"state_from\":" ++ quoteStr state_from ++
  ",\"state_to\":" ++ quoteStr state_to ++
  ",\"tool_name\":" ++ optField tool_name ++
  ",\"ts_ms\":" ++ toString ts_ms ++ "\x7d"

/-- The canonical body of an entry, as recomputed by the loop of
`replay_and_verify` (its `serialize_for_audit` call site). -/
def entryBody (e : AuditEntryData) : String :=
  serializeForAudit e.request_id e.actor e.intent e.decision e.state_from
    e.state_to e.ts_ms e.tool_name e.params_hash e.evidence_hash e.error

/-- The `prev_hash` mismatch message of `replay_and_verify`. -/
def prevMismatchMsg (i : Nat) (expected got : String) : String :=
  "Entry " ++ toString i ++ ": prev_hash mismatch. Expected " ++
    expected.take 16 ++ "..., got " ++ got.take 16 ++ "..."

/-- The `entry_hash` mismatch message of `replay_and_verify`. -/
def entryHashMismatchMsg (i : Nat) (computed got : String) : String :=
  "Entry " ++ toString i ++ ": entry_hash mismatch. Computed " ++
    computed.take 16 ++ "..., got " ++ got.take 16 ++ "..."

/-- The root hash mismatch message of `replay_and_verify`. -/
def rootMismatchMsg (computed expected : String) : String :=
  "Root hash mismatch. Computed " ++ computed.take 16 ++
    "..., expected " ++ expected.take 16 ++ "..."

/-- The `for i, entry in enumerate(entries)` loop of `replay_and_verify`,
started at index `i` with running hash `prev`.  Returns the accumulated
error messages and the final running hash.  Note line 81 of the source:
the running hash is updated to the entry's *claimed* `entry_hash`, even
on mismatch. -/
def replayLoop (H : String → String) (prev : String) (i : Nat) :
    List AuditEntryData → List String × String
  | [] => ([], prev)
  | e :: rest =>
      let errs₁ : List String :=
        if e.prev_hash ≠ prev then [prevMismatchMsg i prev e.prev_hash] else []
      let computed := computeChainHash H prev (entryBody e)
      let errs₂ : List String :=
        if computed ≠ e.entry_hash then [entryHashMismatchMsg i computed e.entry_hash]
        else []
      let tail := replayLoop H e.entry_hash (i + 1) rest
      (errs₁ ++ errs₂ ++ tail.1, tail.2)

/-- `replay_and_verify` of `kernels/audit/replay.py`, with the SHA-256
primitive as the parameter `H`.  Returns `(is_valid, errors)`. -/
def replayAndVerify (H : String → String) (entries : List AuditEntryData)
    (expectedRootHash : Option String) : Bool × List String :=
  if entries.isEmpty then (true, [])
  else
    let loop := replayLoop H genesisHash 0 entries
    let errs :=
      match expectedRootHash with
      | Option.none => loop.1
      | Option.some r =>
          if loop.2 ≠ r then loop.1 ++ [rootMismatchMsg loop.2 r] else loop.1
    (errs.isEmpty, errs)

/-- The chain recurrence of §4.7 from running hash `prev`: each entry's
`prev_hash` equals the running hash, its `entry_hash` is the chain hash
of that and its canonical body, and the running hash advances to the
`entry_hash`. -/
def chainedFrom (H : String → String) (prev : String) : List AuditEntryData → Bool
  | [] => true
  | e :: rest =>
      e.prev_hash == prev &&
      e.entry_hash == computeChainHash H prev (entryBody e) &&
      chainedFrom H e.entry_hash rest

/-- The chain recurrence of §4.7: first `prev_hash` is genesis, each
`entry_hash` is `chain(prev_hash, body)`, each later `prev_hash` is the
previous `entry_hash`. -/
def chainOk (H : String → String) (entries : List AuditEntryData) : Bool :=
  chainedFrom H genesisHash entries

/-- The ledger root of §4.7: the last entry's `entry_hash`, or genesis
when empty. -/
def rootOf (entries : List AuditEntryData) : String :=
  match entries.getLast? with
  | Option.none => genesisHash
  | Option.some e => e.entry_hash

/-! ## State machine (`kernels/state/transitions.py`, `kernels/state/machine.py`) -/

/-- `KernelState` of `kernels/common/types.py`. -/
inductive KernelState where
  | BOOTING
  | IDLE
  | VALIDATING
  | ARBITRATING
  | EXECUTING
  | AUDITING
  | HALTED
  deriving DecidableEq, Repr

/-- The `.value` string of a `KernelState` (the enum member values). -/
def KernelState.value : KernelState → String
  | .BOOTING => "BOOTING"
  | .IDLE => "IDLE"
  | .VALIDATING => "VALIDATING"
  | .ARBITRATING => "ARBITRATING"
  | .EXECUTING => "EXECUTING"
  | .AUDITING => "AUDITING"
  | .HALTED => "HALTED"

/-- `ALLOWED_TRANSITIONS` of `kernels/state/transitions.py`: the mapping
from each state to its set of allowed successor states. -/
def ALLOWED_TRANSITIONS : KernelState → List KernelState
  | .BOOTING => [.IDLE, .HALTED]
  | .IDLE => [.VALIDATING, .HALTED]
  | .VALIDATING => [.ARBITRATING, .AUDITING, .HALTED]
  | .ARBITRATING => [.EXECUTING, .AUDITING, .HALTED]
  | .EXECUTING => [.AUDITING, .HALTED]
  | .AUDITING => [.IDLE, .HALTED]
  | .HALTED => []

/-- `can_transition` of `kernels/state/transitions.py`. -/
def canTransition (fromState toState : KernelState) : Bool :=
  (ALLOWED_TRANSITIONS fromState).contains toState

/-- `is_terminal` of `kernels/state/transitions.py`: a state with no
outgoing transitions. -/
def isTerminal (s : KernelState) : Bool :=
  (ALLOWED_TRANSITIONS s).length == 0

/-- The mutable fields of `StateMachine` (`kernels/state/machine.py`):
the current state and the transition counter.  The optional
`on_transition` callback is observational only and not modelled. -/
structure StateMachine where
  state : KernelState
  transitionCount : Nat
  deriving DecidableEq, Repr

/-- `StateMachine.transition` of `kernels/state/machine.py`.  A raised
`StateError` becomes `Except.error`; since Python raises before any
mutation, the machine component of the result is unchanged on error.
On success the first component carries the returned previous state. -/
def StateMachine.transition (m : StateMachine) (toState : KernelState) :
    Except String KernelState × StateMachine :=
  if isTerminal m.state then
    (Except.error ("Cannot transition from terminal state " ++ m.state.value), m)
  else if ¬ canTransition m.state toState then
    (Except.error ("Invalid transition: " ++ m.state.value ++ " -> " ++ toState.value), m)
  else
    (Except.ok m.state, ⟨toState, m.transitionCount + 1⟩)

/-! ## Kernel configuration and variant boot configs
(`kernels/common/types.py`, `kernels/variants/*/kernel.py`)

Each variant's `boot` builds a fresh `KernelConfig` from the caller's
config and hands it to the base pipeline (`super().boot(...)`).  The
`clock` field is an object reference passed through unchanged by every
variant and is omitted from the embedding. -/

/-- `KernelConfig` of `kernels/common/types.py` (without the clock). -/
structure KernelConfig where
  kernel_id : String
  variant : String
  fail_closed : Bool := true
  require_jurisdiction : Bool := true
  require_audit : Bool := true
  hash_alg : String := "sha256"
  max_param_bytes : Nat := 65536
  max_intent_length : Nat := 4096
  deriving DecidableEq, Repr

/-- The config `StrictKernel.boot` passes to the base pipeline
(`kernels/variants/strict_kernel/kernel.py`). -/
def strictBootConfig (config : KernelConfig) : KernelConfig :=
  { kernel_id := config.kernel_id
    variant := "strict"
    fail_closed := true
    require_jurisdiction := true
    require_audit := true
    hash_alg := config.hash_alg
    max_param_bytes := config.max_param_bytes
    max_intent_length := config.max_intent_length }

/-- The config `PermissiveKernel.boot` passes to the base pipeline
(`kernels/variants/permissive_kernel/kernel.py`). -/
def permissiveBootConfig (config : KernelConfig) : KernelConfig :=
  { kernel_id := config.kernel_id
    variant := "permissive"
    fail_closed := config.fail_closed
    require_jurisdiction := config.require_jurisdiction
    require_audit := config.require_audit
    hash_alg := config.hash_alg
    max_param_bytes := config.max_param_bytes
    max_intent_length := 8192 }

/-- The config `EvidenceFirstKernel.boot` passes to the base pipeline
(`kernels/variants/evidence_first_kernel/kernel.py`). -/
def evidenceFirstBootConfig (config : KernelConfig) : KernelConfig :=
  { kernel_id := config.kernel_id
    variant := "evidence-first"
    fail_closed := true
    require_jurisdiction := true
    require_audit := true
    hash_alg := config.hash_alg
    max_param_bytes := config.max_param_bytes
    max_intent_length := config.max_intent_length }

/-- The config `DualChannelKernel.boot` passes to the base pipeline
(`kernels/variants/dual_channel_kernel/kernel.py`). -/
def dualChannelBootConfig (config : KernelConfig) : KernelConfig :=
  { kernel_id := config.kernel_id
    variant := "dual-channel"
    fail_closed := true
    require_jurisdiction := true
    require_audit := true
    hash_alg := config.hash_alg
    max_param_bytes := config.max_param_bytes
    max_intent_length := config.max_intent_length }

/-! ## Python runtime helpers for the execution layer -/

/-- Python exceptions, by the classes the execution layer distinguishes:
`ToolError` (the library's own class), `TypeError`, `ValueError`, and a
catch-all for other `Exception` subclasses. -/
inductive PyExc where
  | toolError (m : String)
  | typeError (m : String)
  | valueError (m : String)
  | otherError (m : String)
  deriving DecidableEq, Repr

/-- `str(e)` of a modelled exception: its message. -/
def PyExc.msg : PyExc → String
  | .toolError m | .typeError m | .valueError m | .otherError m => m

/-- `str.strip()` of Python: drop leading and trailing whitespace.
(`String.trim` of Lean is defined by a non-reducing loop; this
char-list version is used so that witnesses evaluate.) -/
def pyStrip (s : String) : String :=
  String.mk (((s.data.dropWhile Char.isWhitespace).reverse.dropWhile
    Char.isWhitespace).reverse)

/-- Python truthiness of a modelled value. -/
def pyTruthy : PyValue → Bool
  | .vNone => false
  | .vBool b => b
  | .vInt n => n != 0
  | .vStr s => !s.isEmpty
  | .vDict kvs => !kvs.isEmpty

mutual

/-- `str(v)` of a modelled value, as interpolated into f-strings.  For
dictionaries the inner repr/str distinction is not modelled (no theorem
depends on the text); scalars match CPython. -/
def pyStrOf : PyValue → String
  | .vNone => "None"
  | .vBool true => "True"
  | .vBool false => "False"
  | .vInt n => toString n
  | .vStr s => s
  | .vDict kvs => "\x7b" ++ pyStrEntries kvs ++ "\x7d"
termination_by v => sizeOf v

/-- Comma-joined `'key': value` fragments of a dictionary's `str`. -/
def pyStrEntries : List (String × PyValue) → String
  | [] => ""
  | [(k, v)] => "\x27" ++ k ++ "\x27: " ++ pyStrOf v
  | (k, v) :: p :: rest =>
      "\x27" ++ k ++ "\x27: " ++ pyStrOf v ++ ", " ++ pyStrEntries (p :: rest)
termination_by l => sizeOf l
decreasing_by all_goals simp <;> omega

end

/-- The Python type name of a modelled value. -/
def pyTypeName : PyValue → String
  | .vNone => "NoneType"
  | .vBool _ => "bool"
  | .vInt _ => "int"
  | .vStr _ => "str"
  | .vDict _ => "dict"

/-- The builtin `dict(x)` constructor applied to a modelled value, as in
`dict(tool_call.get("params", {}))`: a `dict` is copied; the empty
string is an empty iterable (yielding an empty dict); any other string
iterates over length-1 characters and raises `ValueError`; non-iterable
values raise `TypeError`. -/
def pyDictCoerce : PyValue → Except PyExc (List (String × PyValue))
  | .vDict kvs => Except.ok kvs
  | .vStr s =>
      if s.isEmpty then Except.ok []
      else Except.error (.valueError
        "dictionary update sequence element #0 has length 1; 2 is required")
  | v => Except.error (.typeError
      ("\x27" ++ pyTypeName v ++ "\x27 object is not iterable"))

/-! ## Tool registry (`kernels/execution/tools.py`) -/

/-- `Tool` of `kernels/execution/tools.py`.  The handler is an arbitrary
Python callable: a function from a keyword-argument dictionary to a
value, which may raise any exception. -/
structure ToolImpl where
  name : String
  description : String
  handler : List (String × PyValue) → Except PyExc PyValue
  param_schema : List (String × String)

/-- `ToolRegistry._tools`: a Python `dict[str, Tool]`, modelled as an
insertion-ordered association list with (invariantly) unique keys. -/
abbrev ToolRegistry := List (String × ToolImpl)

/-- `ToolRegistry.register`.  The raise happens before any mutation, so
the registry component of the result is unchanged on error; a new key
is inserted at the end (Python dict insertion order). -/
def registerTool (reg : ToolRegistry) (name : String)
    (handler : List (String × PyValue) → Except PyExc PyValue)
    (description : String) (param_schema : Option (List (String × String))) :
    Except PyExc Unit × ToolRegistry :=
  if (reg.lookup name).isSome then
    (Except.error (.toolError ("Tool \x27" ++ name ++ "\x27 is already registered")), reg)
  else
    (Except.ok (), reg ++ [(name, ⟨name, description, handler, param_schema.getD []⟩)])

/-- `ToolRegistry.unregister`: `del` of the key, preserving the order of
the remaining entries; raises when the key is absent. -/
def unregisterTool (reg : ToolRegistry) (name : String) :
    Except PyExc Unit × ToolRegistry :=
  if (reg.lookup name).isNone then
    (Except.error (.toolError ("Tool \x27" ++ name ++ "\x27 is not registered")), reg)
  else
    (Except.ok (), reg.eraseP (fun p => p.1 == name))

/-- `ToolRegistry.get`. -/
def getTool (reg : ToolRegistry) (name : String) : Option ToolImpl :=
  reg.lookup name

/-- `ToolRegistry.get` looked up with an arbitrary Python value as the
name (string keys only, so non-string names are never found). -/
def getToolV (reg : ToolRegistry) : PyValue → Option ToolImpl
  | .vStr s => reg.lookup s
  | _ => Option.none

/-- `ToolRegistry.has`. -/
def hasTool (reg : ToolRegistry) (name : String) : Bool :=
  (reg.lookup name).isSome

/-- `ToolRegistry.has` with an arbitrary Python value as the name. -/
def hasToolV (reg : ToolRegistry) (v : PyValue) : Bool :=
  (getToolV reg v).isSome

/-- `ToolRegistry.list_tools`. -/
def listTools (reg : ToolRegistry) : List String :=
  reg.map Prod.fst

/-- `ToolRegistry.invoke`: unknown names raise `ToolError`; a handler's
`TypeError` (e.g. a parameter mismatch under `**params`) is re-raised as
the "Invalid parameters" `ToolError`; any other handler exception is
re-raised as the "execution failed" `ToolError`. -/
def invokeTool (reg : ToolRegistry) (nameV : PyValue)
    (params : List (String × PyValue)) : Except PyExc PyValue :=
  match getToolV reg nameV with
  | Option.none =>
      Except.error (.toolError ("Tool \x27" ++ pyStrOf nameV ++ "\x27 not found"))
  | Option.some tool =>
      match tool.handler params with
      | Except.ok v => Except.ok v
      | Except.error (.typeError m) =>
          Except.error (.toolError
            ("Invalid parameters for tool \x27" ++ pyStrOf nameV ++ "\x27: " ++ m))
      | Except.error e =>
          Except.error (.toolError
            ("Tool \x27" ++ pyStrOf nameV ++ "\x27 execution failed: " ++ e.msg))

/-! ## Dispatcher (`kernels/execution/dispatcher.py`) -/

/-- The argument of `Dispatcher.execute`: a `ToolCall` dataclass (whose
`params` is a dictionary by construction), a dict-shaped call, or any
other Python value. -/
inductive ToolCallInput where
  | ofToolCall (name : String) (params : List (String × PyValue))
  | ofDict (d : List (String × PyValue))
  | invalidShape

/-- `ExecutionResult` of `kernels/execution/dispatcher.py`.  `tool_name`
is whatever value was extracted for the name (typed `str`, but not
enforced for dict-shaped calls). -/
structure ExecutionResult where
  success : Bool
  tool_name : PyValue
  result : Option PyValue
  error : Option String

/-- The shared name/params validation of `Dispatcher.validate_tool_call`
after extraction (note the early returns). -/
def validateNameParams (reg : ToolRegistry) (nameV paramsV : PyValue) : List String :=
  if !pyTruthy nameV then ["Tool name is required"]
  else if !hasToolV reg nameV then
    ["Tool \x27" ++ pyStrOf nameV ++ "\x27 is not registered"]
  else
    match paramsV with
    | .vDict _ => []
    | _ => ["Tool params must be a dictionary"]

/-- `Dispatcher.validate_tool_call`. -/
def validateToolCall (reg : ToolRegistry) : ToolCallInput → List String
  | .ofToolCall name params => validateNameParams reg (.vStr name) (.vDict params)
  | .ofDict d =>
      validateNameParams reg ((d.lookup "name").getD (.vStr ""))
        ((d.lookup "params").getD (.vDict []))
  | .invalidShape => ["Invalid tool call structure"]

/-- The tail of `Dispatcher.execute` after name/params extraction:
validate, then invoke under `except ToolError` / `except Exception`. -/
def executeValidated (reg : ToolRegistry) (tc : ToolCallInput) (nameV : PyValue)
    (params : List (String × PyValue)) : ExecutionResult :=
  let errs := validateToolCall reg tc
  if !errs.isEmpty then
    ⟨false, nameV, Option.none, Option.some (String.intercalate "; " errs)⟩
  else
    match invokeTool reg nameV params with
    | Except.ok v => ⟨true, nameV, Option.some v, Option.none⟩
    | Except.error (.toolError m) => ⟨false, nameV, Option.none, Option.some m⟩
    | Except.error e =>
        ⟨false, nameV, Option.none, Option.some ("Unexpected error: " ++ e.msg)⟩

/-- `Dispatcher.execute`.  The extraction step `params =
dict(tool_call.get("params", {}))` runs *before* validation and outside
any `try`, so a failing `dict()` coercion propagates as an uncaught
exception (`Except.error`); every other path returns an
`ExecutionResult`. -/
def executeDispatch (reg : ToolRegistry) : ToolCallInput → Except PyExc ExecutionResult
  | .ofToolCall name params =>
      Except.ok (executeValidated reg (.ofToolCall name params) (.vStr name) params)
  | .ofDict d =>
      match pyDictCoerce ((d.lookup "params").getD (.vDict [])) with
      | Except.error e => Except.error e
      | Except.ok params =>
          Except.ok (executeValidated reg (.ofDict d)
            ((d.lookup "name").getD (.vStr "")) params)
  | .invalidShape =>
      Except.ok ⟨false, .vStr "", Option.none, Option.some "Invalid tool call structure"⟩

/-! ## Jurisdiction (`kernels/jurisdiction/policy.py`, `kernels/jurisdiction/rules.py`)

Policy sets are Python frozensets: membership-only collections whose
iteration order is unspecified.  They are modelled as lists; the only
order-sensitive use (`required_fields` iteration) affects only the
order of violation messages, which no claim depends on. -/

/-- `JurisdictionPolicy` of `kernels/jurisdiction/policy.py`. -/
structure JurisdictionPolicy where
  allowed_actors : List String
  allowed_tools : List String
  allowed_states : List KernelState
  required_fields : List String
  max_param_bytes : Nat
  max_intent_length : Nat
  allow_intent_only : Bool

/-- `JurisdictionPolicy.allows_actor` (wildcard-aware). -/
def allowsActor (p : JurisdictionPolicy) (actor : String) : Bool :=
  p.allowed_actors.contains "*" || p.allowed_actors.contains actor

/-- `JurisdictionPolicy.allows_tool` applied to the extracted name value
(wildcard first; non-string names are never members of a string set). -/
def allowsToolV (p : JurisdictionPolicy) (tool : PyValue) : Bool :=
  p.allowed_tools.contains "*" ||
    match tool with
    | .vStr s => p.allowed_tools.contains s
    | _ => false

/-- A request's `tool_call` attribute as handled by `rules.py`: a
`ToolCall` dataclass or a dict.  (Any other value would raise inside
`check_tool_allowed` before the defensive "invalid structure" branch of
`check_tool_call_structure` is reached, and is not modelled.) -/
inductive ToolCallField where
  | ofCall (name : String) (params : List (String × PyValue))
  | ofDict (d : List (String × PyValue))

/-- `KernelRequest` of `kernels/common/types.py`.  `params` defaults to
a dict but may be passed as `None` (the rules check for it). -/
structure KernelRequest where
  request_id : String
  ts_ms : Int
  actor : String
  intent : String
  tool_call : Option ToolCallField
  params : Option (List (String × PyValue))
  evidence : Option String

/-- The `field_map.get` of `check_required_fields`: only the four listed
attributes are consulted; any other field name maps to `None`. -/
def fieldMapGet (r : KernelRequest) : String → Option PyValue
  | "request_id" => Option.some (.vStr r.request_id)
  | "actor" => Option.some (.vStr r.actor)
  | "intent" => Option.some (.vStr r.intent)
  | "ts_ms" => Option.some (.vInt r.ts_ms)
  | _ => Option.none

/-- The violation message of `check_required_fields`. -/
def requiredFieldMsg (f : String) : String :=
  "Required field \x27" ++ f ++ "\x27 is missing or empty"

/-- `check_required_fields` of `kernels/jurisdiction/rules.py`: a
violation when the mapped value is `None` or an empty string. -/
def checkRequiredFields (r : KernelRequest) (p : JurisdictionPolicy) : List String :=
  p.required_fields.filterMap (fun f =>
    match fieldMapGet r f with
    | Option.none => Option.some (requiredFieldMsg f)
    | Option.some (.vStr s) =>
        if s.isEmpty then Option.some (requiredFieldMsg f) else Option.none
    | Option.some _ => Option.none)

/-- `check_actor_allowed` of `kernels/jurisdiction/rules.py`. -/
def checkActorAllowed (r : KernelRequest) (p : JurisdictionPolicy) : List String :=
  if !allowsActor p r.actor then
    ["Actor \x27" ++ r.actor ++ "\x27 is not in allowed actors"]
  else []

/-- The tool name extracted by `check_tool_allowed`:
`tool_call.name` for a `ToolCall`, `tool_call.get("name", "")` for a dict. -/
def toolCallNameV : ToolCallField → PyValue
  | .ofCall name _ => .vStr name
  | .ofDict d => (d.lookup "name").getD (.vStr "")

/-- `check_tool_allowed` of `kernels/jurisdiction/rules.py` (both
branches of the `None` case return no violation). -/
def checkToolAllowed (r : KernelRequest) (p : JurisdictionPolicy) : List String :=
  match r.tool_call with
  | Option.none => []
  | Option.some tc =>
      let nameV := toolCallNameV tc
      if !allowsToolV p nameV then
        ["Tool \x27" ++ pyStrOf nameV ++ "\x27 is not in allowed tools"]
      else []

/-- `check_param_size` of `kernels/jurisdiction/rules.py`.  The modelled
serializer is total, so the `except` branch (violation on serialization
failure) is unreachable in the embedding. -/
def checkParamSize (r : KernelRequest) (p : JurisdictionPolicy) : List String :=
  match r.params with
  | Option.none => []
  | Option.some params =>
      let size := (serializeDeterministic (.vDict params)).utf8ByteSize
      if size > p.max_param_bytes then
        ["Params size (" ++ toString size ++ " bytes) exceeds maximum (" ++
          toString p.max_param_bytes ++ " bytes)"]
      else []

/-- `check_intent_length` of `kernels/jurisdiction/rules.py` (an empty
intent is skipped by the truthiness test). -/
def checkIntentLength (r : KernelRequest) (p : JurisdictionPolicy) : List String :=
  if !r.intent.isEmpty && r.intent.length > p.max_intent_length then
    ["Intent length (" ++ toString r.intent.length ++ ") exceeds maximum (" ++
      toString p.max_intent_length ++ ")"]
  else []

/-- `check_tool_call_structure` of `kernels/jurisdiction/rules.py`. -/
def checkToolCallStructure (r : KernelRequest) : List String :=
  match r.tool_call with
  | Option.none => []
  | Option.some (.ofCall name _) =>
      if name.isEmpty then ["Tool call name is empty"] else []
  | Option.some (.ofDict d) =>
      (if !pyTruthy ((d.lookup "name").getD .vNone) then
        ["Tool call name is empty"] else []) ++
      (match d.lookup "params" with
       | Option.some (.vDict _) => []
       | Option.some _ => ["Tool call params must be a dictionary"]
       | Option.none => [])

/-- `PolicyResult` of `kernels/jurisdiction/rules.py`. -/
structure PolicyResult where
  allowed : Bool
  violations : List String
  deriving DecidableEq, Repr

/-- `evaluate_policy` of `kernels/jurisdiction/rules.py`: all six checks
run and their violations accumulate; `allowed` is emptiness of the
accumulated list. -/
def evaluatePolicy (r : KernelRequest) (p : JurisdictionPolicy) : PolicyResult :=
  let all :=
    checkRequiredFields r p ++ checkActorAllowed r p ++ checkToolAllowed r p ++
      checkParamSize r p ++ checkIntentLength r p ++ checkToolCallStructure r
  ⟨all.length == 0, all⟩

/-! ## Dual-channel variant hook
(`kernels/variants/dual_channel_kernel/kernel.py`) -/

/-- The "cannot be empty" message of the dual-channel check. -/
def constraintEmptyMsg (k : String) : String :=
  "Constraint \x27" ++ k ++ "\x27 cannot be empty"

/-- The per-key emptiness test of the dual-channel loop: a present key
whose value is `None`, or is a string that strips to empty, yields an
error; an absent key and non-string values yield none. -/
def constraintKeyErr (kvs : List (String × PyValue)) (k : String) : Option String :=
  match kvs.lookup k with
  | Option.some .vNone => Option.some (constraintEmptyMsg k)
  | Option.some (.vStr s) =>
      if (pyStrip s).isEmpty then Option.some (constraintEmptyMsg k)
      else Option.none
  | _ => Option.none

/-- `DualChannelKernel._check_variant_requirements`.
`REQUIRED_CONSTRAINT_KEYS` is a frozenset with unspecified iteration
order; the per-key loop order is fixed here (only message order
depends on it), and `sorted(missing_keys)` is the filter over the
alphabetically sorted key list. -/
def dualChannelCheck (r : KernelRequest) : List String :=
  match r.params with
  | Option.none => ["Params with constraints dict is required"]
  | Option.some params =>
      match params.lookup "constraints" with
      | Option.none => ["Constraints dict is required in params"]
      | Option.some .vNone => ["Constraints dict is required in params"]
      | Option.some (.vDict kvs) =>
          let keys := kvs.map Prod.fst
          let missing :=
            ["non_goals", "scope", "success_criteria"].filter
              (fun k => !keys.contains k)
          let missingErrs :=
            if missing.isEmpty then []
            else ["Missing required constraint keys: " ++
                    String.intercalate ", " missing]
          let emptyErrs :=
            ["scope", "non_goals", "success_criteria"].filterMap
              (constraintKeyErr kvs)
          missingErrs ++ emptyErrs
      | Option.some _ => ["Constraints must be a dictionary"]

/-! ## Claim-side predicates and concrete sample inputs

The remaining definitions are not part of the embedding: they state
claim-level predicates (how a spec sentence quantifies over the
embedding) and concrete inputs used by witnesses and counterexamples.
-/

/-- `p` is a prefix of `s`, on the character lists. -/
def strIsPrefix (p s : String) : Bool :=
  p.data.isPrefixOf s.data

/-- An error message references entry `i`: it starts with `"Entry i:"`
(all three replay message shapes start that way). -/
def mentionsEntry (i : Nat) (m : String) : Bool :=
  strIsPrefix ("Entry " ++ toString i ++ ":") m

/-- An error message is the prev_hash mismatch for entry `i`. -/
def isPrevMismatchFor (i : Nat) (m : String) : Bool :=
  strIsPrefix ("Entry " ++ toString i ++ ": prev_hash mismatch") m

/-- The running hash after the replay loop: the last entry's claimed
`entry_hash`, or the initial value when the list is empty. -/
def lastClaimed (prev : String) (es : List AuditEntryData) : String :=
  match es.getLast? with
  | Option.none => prev
  | Option.some e => e.entry_hash

/-- A concrete stand-in for the hash parameter in witnesses: a
length-tagged digest, cheap to evaluate and collision-free on the
concrete inputs used below (checked by evaluation). -/
def sampleHash : String → String := fun s => "h" ++ toString s.length

/-- Build a §4.7-chained entry from a running hash and plain fields
(optional fields absent). -/
def mkChainedEntry (H : String → String)
    (prev request_id actor intent decision state_from state_to : String)
    (ts_ms : Nat) : AuditEntryData :=
  { prev_hash := prev
    entry_hash := computeChainHash H prev
      (serializeForAudit request_id actor intent decision state_from state_to
        ts_ms Option.none Option.none Option.none Option.none)
    request_id, actor, intent, decision, state_from, state_to, ts_ms
    tool_name := Option.none
    params_hash := Option.none
    evidence_hash := Option.none
    error := Option.none }

/-- First entry of the sample chained ledger. -/
def sampleA0 : AuditEntryData :=
  mkChainedEntry sampleHash genesisHash "r1" "alice" "say hi" "ALLOW" "IDLE" "IDLE" 1000

/-- Second entry of the sample chained ledger. -/
def sampleA1 : AuditEntryData :=
  mkChainedEntry sampleHash sampleA0.entry_hash "r2" "alice" "say bye" "ALLOW" "IDLE" "IDLE" 1001

/-- A two-entry ledger satisfying the §4.7 chain recurrence under `sampleHash`. -/
def sampleLedgerA : List AuditEntryData := [sampleA0, sampleA1]

/-- `sampleA1` with its hashed field `intent` replaced (chain fields kept). -/
def sampleTamperedA1 : AuditEntryData := { sampleA1 with intent := "changed text" }

/-- Entries of a three-entry chained ledger (for the mid-ledger claim). -/
def sampleB0 : AuditEntryData :=
  mkChainedEntry sampleHash genesisHash "r1" "alice" "one" "ALLOW" "IDLE" "IDLE" 1000

/-- Second entry of the three-entry ledger. -/
def sampleB1 : AuditEntryData :=
  mkChainedEntry sampleHash sampleB0.entry_hash "r2" "alice" "two" "ALLOW" "IDLE" "IDLE" 1001

/-- Third entry of the three-entry ledger. -/
def sampleB2 : AuditEntryData :=
  mkChainedEntry sampleHash sampleB1.entry_hash "r3" "alice" "three" "ALLOW" "IDLE" "IDLE" 1002

/-- `sampleB1` with its `intent` mutated (chain fields kept), as in
scenario S6. -/
def sampleTamperedB1 : AuditEntryData := { sampleB1 with intent := "evil" }

/-- An arbitrary (not chained) entry for the root-check witness. -/
def sampleEntryD : AuditEntryData :=
  { prev_hash := "p", entry_hash := "h", request_id := "r", actor := "a"
    intent := "i", decision := "ALLOW", state_from := "IDLE", state_to := "IDLE"
    ts_ms := 5, tool_name := Option.none, params_hash := Option.none
    evidence_hash := Option.none, error := Option.none }

/-- The §4.2 transition table as enumerated by the claim. -/
def claimTransitionTable : List (KernelState × KernelState) :=
  [(.BOOTING, .IDLE), (.BOOTING, .HALTED),
   (.IDLE, .VALIDATING), (.IDLE, .HALTED),
   (.VALIDATING, .ARBITRATING), (.VALIDATING, .AUDITING), (.VALIDATING, .HALTED),
   (.ARBITRATING, .EXECUTING), (.ARBITRATING, .AUDITING), (.ARBITRATING, .HALTED),
   (.EXECUTING, .AUDITING), (.EXECUTING, .HALTED),
   (.AUDITING, .IDLE), (.AUDITING, .HALTED)]

/-- The claim's failure condition for `transition`: the current state is
terminal (HALTED) or the pair is absent from the §4.2 table. -/
def claimTransitionFails (s t : KernelState) : Bool :=
  s == .HALTED || !(claimTransitionTable.contains (s, t))

/-- Whether a modelled call returned normally (no exception raised). -/
def exceptIsOk {ε α : Type _} : Except ε α → Bool
  | Except.ok _ => true
  | Except.error _ => false

/-- A registry mutation, for quantifying over call sequences. -/
inductive RegOp where
  | doRegister (name : String)
      (handler : List (String × PyValue) → Except PyExc PyValue)
      (description : String) (param_schema : Option (List (String × String)))
  | doUnregister (name : String)

/-- Apply one mutation (failures leave the registry unchanged). -/
def applyRegOp (reg : ToolRegistry) : RegOp → ToolRegistry
  | .doRegister n h d s => (registerTool reg n h d s).2
  | .doUnregister n => (unregisterTool reg n).2

/-- Apply a call sequence left to right. -/
def applyRegOps (reg : ToolRegistry) (ops : List RegOp) : ToolRegistry :=
  ops.foldl applyRegOp reg

/-- Claim-side characterization of `check_required_fields` (amended):
the four mapped attributes violate exactly when empty (`ts_ms`, an
integer, never does); every other required name always violates. -/
def requiredFieldViolates (r : KernelRequest) : String → Bool
  | "request_id" => r.request_id.isEmpty
  | "actor" => r.actor.isEmpty
  | "intent" => r.intent.isEmpty
  | "ts_ms" => false
  | _ => true

/-- Claim-side predicate of C9 as stated: `params.constraints` is a
mapping holding a non-empty (non-whitespace) *string* for each of the
three required keys. -/
def dualChannelSpecOk (r : KernelRequest) : Bool :=
  match r.params with
  | Option.none => false
  | Option.some params =>
      match params.lookup "constraints" with
      | Option.some (.vDict kvs) =>
          ["scope", "non_goals", "success_criteria"].all (fun k =>
            match kvs.lookup k with
            | Option.some (.vStr s) => !(pyStrip s).isEmpty
            | _ => false)
      | _ => false

/-- The per-key acceptance of the code (amended claim): a present value
that is neither `None` nor an empty/whitespace string (values of
non-string types are accepted). -/
def constraintKeyOk (kvs : List (String × PyValue)) (k : String) : Bool :=
  match kvs.lookup k with
  | Option.none => false
  | Option.some .vNone => false
  | Option.some (.vStr s) => !(pyStrip s).isEmpty
  | Option.some _ => true

/-- Amended claim-side predicate for the dual-channel hook: constraints
is a dict containing the three required keys, each passing
`constraintKeyOk`. -/
def dualChannelAcceptable (r : KernelRequest) : Bool :=
  match r.params with
  | Option.none => false
  | Option.some params =>
      match params.lookup "constraints" with
      | Option.some (.vDict kvs) =>
          ["scope", "non_goals", "success_criteria"].all (constraintKeyOk kvs)
      | _ => false

/-- A request whose constraint `scope` is an integer: every key present
and "non-empty", but not all values are strings. -/
def dualChannelBadRequest : KernelRequest :=
  { request_id := "r1", ts_ms := 1, actor := "a", intent := "do"
    tool_call := Option.none
    params := Option.some [("constraints", .vDict
      [("scope", .vInt 5), ("non_goals", .vStr "n"), ("success_criteria", .vStr "s")])]
    evidence := Option.none }

/-- A request satisfying the dual-channel requirements with strings. -/
def dualChannelGoodRequest : KernelRequest :=
  { request_id := "r1", ts_ms := 1, actor := "a", intent := "do"
    tool_call := Option.none
    params := Option.some [("constraints", .vDict
      [("scope", .vStr "x"), ("non_goals", .vStr "y"), ("success_criteria", .vStr "z")])]
    evidence := Option.none }

/-- A policy requiring the `evidence` field (not in the checker's
`field_map`). -/
def evidencePolicyC8 : JurisdictionPolicy :=
  { allowed_actors := ["*"], allowed_tools := ["*"]
    allowed_states := [.IDLE, .VALIDATING, .ARBITRATING, .EXECUTING, .AUDITING]
    required_fields := ["evidence"], max_param_bytes := 65536
    max_intent_length := 4096, allow_intent_only := false }

/-- A request carrying non-empty evidence. -/
def evidenceRequestC8 : KernelRequest :=
  { request_id := "r1", ts_ms := 1000, actor := "alice", intent := "do"
    tool_call := Option.none, params := Option.none
    evidence := Option.some "ok" }

/-- A policy requiring `actor`, for the amended-claim witness. -/
def actorPolicyC8 : JurisdictionPolicy :=
  { allowed_actors := ["*"], allowed_tools := ["*"]
    allowed_states := [.IDLE, .VALIDATING, .ARBITRATING, .EXECUTING, .AUDITING]
    required_fields := ["actor"], max_param_bytes := 65536
    max_intent_length := 4096, allow_intent_only := false }

/-- A request with an empty actor. -/
def emptyActorRequestC8 : KernelRequest :=
  { request_id := "r1", ts_ms := 1000, actor := "", intent := "do"
    tool_call := Option.none, params := Option.none
    evidence := Option.none }

/-- A `KernelConfig` explicitly constructed with `fail_closed=False`. -/
def permissiveInputConfig : KernelConfig :=
  { kernel_id := "k1", variant := "permissive", fail_closed := false
    require_jurisdiction := true, require_audit := true
    hash_alg := "sha256", max_param_bytes := 65536, max_intent_length := 4096 }

/-- The handler of the built-in `echo` tool
(`create_default_registry` in `kernels/execution/tools.py`):
`def echo(text): return text`, invoked as `echo(**params)` — exactly the
keyword `text` is accepted, anything else raises `TypeError`. -/
def echoHandler : List (String × PyValue) → Except PyExc PyValue
  | [("text", v)] => Except.ok v
  | _ => Except.error (.typeError "echo() got an unexpected keyword argument")

/-- A registry with the built-in `echo` registered. -/
def sampleRegistry : ToolRegistry :=
  [("echo", ⟨"echo", "Return the input text unchanged", echoHandler, [("text", "str")]⟩)]

/-- A sample call sequence for the registry witness. -/
def sampleRegOps : List RegOp :=
  [.doRegister "a" echoHandler "" Option.none,
   .doRegister "b" echoHandler "" Option.none,
   .doUnregister "a"]

/-! ## General lemmas -/

theorem lookup_isSome_iff_mem_keys {α : Type _} (l : List (String × α)) (k : String) :
    (l.lookup k).isSome = true ↔ k ∈ l.map Prod.fst := by
  induction l with
  | nil => simp [List.lookup]
  | cons p rest ih =>
      obtain ⟨a, b⟩ := p
      by_cases h : k = a
      · subst h; simp [List.lookup]
      · have hbeq : (k == a) = false := beq_false_of_ne h
        simp [List.lookup, hbeq, ih, h]

theorem strIsPrefix_append (p t u : String) (h : strIsPrefix p t = true) :
    strIsPrefix p (t ++ u) = true := by
  simp only [strIsPrefix, List.isPrefixOf_iff_prefix] at h ⊢
  have hdata : (t ++ u).data = t.data ++ u.data := rfl
  rw [hdata]
  exact h.trans (List.prefix_append _ _)

theorem strIsPrefix_false_of_append (p t u : String) (hlen : p.length ≤ t.length)
    (h : strIsPrefix p t = false) : strIsPrefix p (t ++ u) = false := by
  simp only [strIsPrefix] at h ⊢
  have hdata : (t ++ u).data = t.data ++ u.data := rfl
  rw [hdata]
  rw [Bool.eq_false_iff] at h ⊢
  intro hcon
  apply h
  rw [List.isPrefixOf_iff_prefix] at hcon ⊢
  rw [List.prefix_iff_eq_take] at hcon ⊢
  have hlen' : p.data.length ≤ t.data.length := hlen
  rw [List.take_append_of_le_length hlen'] at hcon
  exact hcon

/-! ## Replay loop lemmas -/

theorem replayLoop_snd (H : String → String) :
    ∀ (es : List AuditEntryData) (prev : String) (i : Nat),
      (replayLoop H prev i es).2 = lastClaimed prev es := by
  intro es
  induction es with
  | nil => intro prev i; rfl
  | cons e rest ih =>
      intro prev i
      simp only [replayLoop]
      rw [ih]
      cases rest with
      | nil => rfl
      | cons f rs =>
          simp only [lastClaimed]
          rw [List.getLast?_cons_cons]
          cases hgl : (f :: rs).getLast? with
          | none => exact absurd hgl (by simp)
          | some g => rfl

theorem replayLoop_fst_chained (H : String → String) :
    ∀ (es : List AuditEntryData) (prev : String) (i : Nat),
      chainedFrom H prev es = true → (replayLoop H prev i es).1 = [] := by
  intro es
  induction es with
  | nil => intro prev i _; rfl
  | cons e rest ih =>
      intro prev i h
      simp only [chainedFrom, Bool.and_eq_true, beq_iff_eq] at h
      obtain ⟨⟨hp, hh⟩, hrest⟩ := h
      simp [replayLoop, hp, ← hh, ih _ _ hrest]

/-- Claim C2: for every entry list satisfying the §4.7 chain recurrence,
`replay_and_verify` with `expected_root` equal to the last entry's
`entry_hash` (genesis when empty) returns valid with an empty error
list. -/
theorem replay_recomputability (H : String → String) (entries : List AuditEntryData)
    (hchain : chainOk H entries = true) :
    replayAndVerify H entries (Option.some (rootOf entries)) = (true, []) := by
  cases entries with
  | nil => rfl
  | cons e rest =>
      have h1 : (replayLoop H genesisHash 0 (e :: rest)).1 = [] :=
        replayLoop_fst_chained H _ _ _ hchain
      have h2 : (replayLoop H genesisHash 0 (e :: rest)).2 =
          lastClaimed genesisHash (e :: rest) := replayLoop_snd H _ _ _
      have h3 : lastClaimed genesisHash (e :: rest) = rootOf (e :: rest) := by
        simp [lastClaimed, rootOf]
      simp [replayAndVerify, h1, h2, h3]

/-- Witness for C2 at a concrete two-entry chained ledger. -/
theorem replay_recomputability_witness :
    chainOk sampleHash sampleLedgerA = true ∧
    replayAndVerify sampleHash sampleLedgerA (Option.some (rootOf sampleLedgerA)) = (true, []) :=
  ⟨by decide, replay_recomputability sampleHash sampleLedgerA (by decide)⟩

theorem isEmpty_false_of_ne_nil {α : Type _} (l : List α) (h : l ≠ []) :
    l.isEmpty = false := by
  cases l with
  | nil => exact absurd rfl h
  | cons a t => rfl

theorem replayLoop_fst_tamper (H : String → String) :
    ∀ (es : List AuditEntryData) (prev : String) (i j : Nat) (e' : AuditEntryData),
      chainedFrom H prev es = true → (hj : j < es.length) →
      e'.entry_hash = (es.get ⟨j, hj⟩).entry_hash →
      computeChainHash H ((es.get ⟨j, hj⟩).prev_hash) (entryBody e') ≠
        (es.get ⟨j, hj⟩).entry_hash →
      (replayLoop H prev i (es.set j e')).1 ≠ [] := by
  intro es
  induction es with
  | nil => intro prev i j e' hch hj; exact absurd hj (by simp)
  | cons e rest ih =>
      intro prev i j e' hch hj hhash hnc
      simp only [chainedFrom, Bool.and_eq_true, beq_iff_eq] at hch
      obtain ⟨⟨hp, hh⟩, hrest⟩ := hch
      cases j with
      | zero =>
          have hget : (e :: rest).get ⟨0, hj⟩ = e := rfl
          rw [hget] at hhash hnc
          have hcond : computeChainHash H prev (entryBody e') ≠ e'.entry_hash := by
            rw [hhash, ← hp]; exact hnc
          rw [List.set_cons_zero]
          simp only [replayLoop]
          simp [hcond]
      | succ k =>
          have hj' : k < rest.length := by
            have := hj; simp only [List.length_cons] at this; omega
          have hget : (e :: rest).get ⟨k + 1, hj⟩ = rest.get ⟨k, hj'⟩ := rfl
          rw [hget] at hhash hnc
          have htail := ih e.entry_hash (i + 1) k e' hrest hj' hhash hnc
          rw [List.set_cons_succ]
          simp only [replayLoop]
          intro heq
          exact htail (List.append_eq_nil.mp heq).2

/-- Claim C1: for every §4.7-chained entry list with at least one entry,
replacing any entry by one with the same chain fields but a different
canonical body makes `replay_and_verify` return invalid, provided the
changed body does not collide (under the hash) with the stored
`entry_hash`. -/
theorem replay_tamper_sensitivity (H : String → String) (entries : List AuditEntryData)
    (i : Nat) (hi : i < entries.length) (e' : AuditEntryData) (root : Option String)
    (hchain : chainOk H entries = true)
    (hprev : e'.prev_hash = (entries.get ⟨i, hi⟩).prev_hash)
    (hhash : e'.entry_hash = (entries.get ⟨i, hi⟩).entry_hash)
    (hbody : entryBody e' ≠ entryBody (entries.get ⟨i, hi⟩))
    (hnocol : computeChainHash H ((entries.get ⟨i, hi⟩).prev_hash) (entryBody e') ≠
      (entries.get ⟨i, hi⟩).entry_hash) :
    (replayAndVerify H (entries.set i e') root).1 = false := by
  have hloop : (replayLoop H genesisHash 0 (entries.set i e')).1 ≠ [] :=
    replayLoop_fst_tamper H entries genesisHash 0 i e' hchain hi hhash hnocol
  have hnenil : entries.set i e' ≠ [] := by
    intro h
    have := congrArg List.length h
    simp only [List.length_set, List.length_nil] at this
    omega
  have hne : (entries.set i e').isEmpty = false := isEmpty_false_of_ne_nil _ hnenil
  simp only [replayAndVerify, hne, Bool.false_eq_true, if_false]
  apply isEmpty_false_of_ne_nil
  cases root with
  | none => exact hloop
  | some r =>
      dsimp only
      split
      · intro hcontra
        exact hloop (List.append_eq_nil.mp hcontra).1
      · exact hloop

/-- Witness for C1: tampering the second entry of the sample ledger. -/
theorem replay_tamper_sensitivity_witness :
    chainOk sampleHash sampleLedgerA = true ∧
    (replayAndVerify sampleHash (sampleLedgerA.set 1 sampleTamperedA1)
        (Option.some (rootOf sampleLedgerA))).1 = false :=
  ⟨by decide,
   replay_tamper_sensitivity sampleHash sampleLedgerA 1 (by decide) sampleTamperedA1
     (Option.some (rootOf sampleLedgerA)) (by decide) (by decide) (by decide)
     (by decide) (by decide)⟩

/-- Counterexample for C4 as stated: on the empty list the source
returns `(True, [])` *before* the root check, so an expected root
different from the recomputed genesis hash is not reported. -/
theorem replay_root_check_counterexample :
    ("deadbeef" : String) ≠ genesisHash ∧
    replayAndVerify sampleHash [] (Option.some "deadbeef") = (true, []) :=
  ⟨by decide, rfl⟩

/-- Claim C4 amended: for every *non-empty* entry list, a supplied
`expected_root` different from the final running hash (the last entry's
claimed `entry_hash`) yields invalid with a root-mismatch error recorded
last; the empty list returns valid with no errors regardless of
`expected_root`. -/
theorem replay_root_check :
    (∀ (H : String → String) (entries : List AuditEntryData) (r : String),
        entries ≠ [] → r ≠ lastClaimed genesisHash entries →
        (replayAndVerify H entries (Option.some r)).1 = false ∧
          (replayAndVerify H entries (Option.some r)).2.getLast? =
            Option.some (rootMismatchMsg (lastClaimed genesisHash entries) r)) ∧
    (∀ (H : String → String) (r : Option String),
        replayAndVerify H [] r = (true, [])) := by
  constructor
  · intro H entries r hne hr
    have hempty : entries.isEmpty = false := isEmpty_false_of_ne_nil _ hne
    have hsnd : (replayLoop H genesisHash 0 entries).2 = lastClaimed genesisHash entries :=
      replayLoop_snd H _ _ _
    have hcond : (replayLoop H genesisHash 0 entries).2 ≠ r := by
      rw [hsnd]; exact fun h => hr h.symm
    simp only [replayAndVerify, hempty, Bool.false_eq_true, if_false]
    rw [if_pos hcond]
    refine ⟨?_, ?_⟩
    · apply isEmpty_false_of_ne_nil
      intro hcontra
      have := (List.append_eq_nil.mp hcontra).2
      simp at this
    · rw [List.getLast?_concat, hsnd]
  · intro H r
    rfl

/-- Witness for the amended C4 at a concrete entry and the empty list. -/
theorem replay_root_check_witness :
    ((replayAndVerify sampleHash [sampleEntryD] (Option.some "x")).1 = false ∧
      (replayAndVerify sampleHash [sampleEntryD] (Option.some "x")).2.getLast? =
        Option.some (rootMismatchMsg (lastClaimed genesisHash [sampleEntryD]) "x")) ∧
    replayAndVerify sampleHash [] Option.none = (true, []) :=
  ⟨replay_root_check.1 sampleHash [sampleEntryD] "x" (by decide) (by decide),
   replay_root_check.2 sampleHash Option.none⟩

theorem strIsPrefix_append_left (s p t : String) (h : strIsPrefix p t = true) :
    strIsPrefix (s ++ p) (s ++ t) = true := by
  simp only [strIsPrefix, List.isPrefixOf_iff_prefix] at h ⊢
  have h1 : (s ++ p).data = s.data ++ p.data := rfl
  have h2 : (s ++ t).data = s.data ++ t.data := rfl
  rw [h1, h2, List.prefix_append_right_inj]
  exact h

theorem mentionsEntry_entryHashMismatchMsg (i : Nat) (c g : String) :
    mentionsEntry i (entryHashMismatchMsg i c g) = true := by
  simp only [mentionsEntry, entryHashMismatchMsg]
  apply strIsPrefix_append
  apply strIsPrefix_append
  apply strIsPrefix_append
  apply strIsPrefix_append
  apply strIsPrefix_append_left
  decide

theorem strDataAppend (s t : String) : (s ++ t).data = s.data ++ t.data := rfl

theorem strIsPrefix_false_of_take_ne (p s : String) (n : Nat) (hn : n ≤ p.length)
    (h : p.data.take n ≠ s.data.take n) : strIsPrefix p s = false := by
  rw [Bool.eq_false_iff]
  intro hcon
  apply h
  simp only [strIsPrefix, List.isPrefixOf_iff_prefix] at hcon
  have hp : p.data = s.data.take p.data.length := List.prefix_iff_eq_take.mp hcon
  have hn' : n ≤ p.data.length := hn
  calc p.data.take n = (s.data.take p.data.length).take n := by rw [← hp]
    _ = s.data.take (min n p.data.length) := List.take_take _ _ _
    _ = s.data.take n := by rw [Nat.min_eq_left hn']

theorem isPrevMismatchFor_two_of_entryHash_one (c g : String) :
    isPrevMismatchFor 2 (entryHashMismatchMsg 1 c g) = false := by
  have hdata : (entryHashMismatchMsg 1 c g).data =
      ("Entry " ++ toString 1 ++ ": entry_hash mismatch. Computed ").data ++
        ((c.take 16).data ++ (("..., got " : String).data ++
          ((g.take 16).data ++ ("..." : String).data))) := by
    simp only [entryHashMismatchMsg, strDataAppend, List.append_assoc]
  apply strIsPrefix_false_of_take_ne _ _ 9 (by decide)
  rw [hdata, List.take_append_of_le_length (by decide)]
  decide

/-- Counterexample for C3 as stated: a well-chained three-entry ledger
whose entry 1 has its `intent` mutated replays as invalid with an error
referencing entry 1, but with *no* prev_hash-mismatch error for any
later entry (index 2 is the only index greater than 1), because the
verifier advances on the claimed `entry_hash`. -/
theorem replay_midledger_counterexample :
    chainOk sampleHash [sampleB0, sampleB1, sampleB2] = true ∧
    (replayAndVerify sampleHash [sampleB0, sampleTamperedB1, sampleB2]
        (Option.some sampleB2.entry_hash)).1 = false ∧
    (replayAndVerify sampleHash [sampleB0, sampleTamperedB1, sampleB2]
        (Option.some sampleB2.entry_hash)).2.any (mentionsEntry 1) = true ∧
    (replayAndVerify sampleHash [sampleB0, sampleTamperedB1, sampleB2]
        (Option.some sampleB2.entry_hash)).2.any (isPrevMismatchFor 2) = false := by
  refine ⟨by decide, by decide, by decide, by decide⟩

theorem replayLoop_cons_ok (H : String → String) (prev : String) (i : Nat)
    (e : AuditEntryData) (rest : List AuditEntryData)
    (hp : e.prev_hash = prev)
    (hh : computeChainHash H prev (entryBody e) = e.entry_hash) :
    replayLoop H prev i (e :: rest) = replayLoop H e.entry_hash (i + 1) rest := by
  simp [replayLoop, hp, hh]

theorem replayLoop_cons_hashMismatch (H : String → String) (prev : String) (i : Nat)
    (e : AuditEntryData) (rest : List AuditEntryData)
    (hp : e.prev_hash = prev)
    (hh : computeChainHash H prev (entryBody e) ≠ e.entry_hash) :
    replayLoop H prev i (e :: rest) =
      (entryHashMismatchMsg i (computeChainHash H prev (entryBody e)) e.entry_hash ::
        (replayLoop H e.entry_hash (i + 1) rest).1,
       (replayLoop H e.entry_hash (i + 1) rest).2) := by
  simp [replayLoop, hp, hh]

/-- Claim C3 corrected: on a well-chained three-entry ledger, mutating
entry 1's `intent` (with the recomputed chain hash of the changed body
differing from the stored `entry_hash`) makes replay invalid with the
error list consisting of exactly the entry-1 entry_hash mismatch —
every error references entry 1 and no prev_hash-mismatch error is
reported for any entry with index greater than 1. -/
theorem replay_midledger_tamper (H : String → String) (e0 e1 e2 : AuditEntryData)
    (v : String) (hchain : chainOk H [e0, e1, e2] = true)
    (hv : v ≠ e1.intent)
    (hnocol : computeChainHash H e1.prev_hash (entryBody { e1 with intent := v }) ≠
      e1.entry_hash) :
    replayAndVerify H [e0, { e1 with intent := v }, e2] (Option.some e2.entry_hash) =
      (false,
       [entryHashMismatchMsg 1
          (computeChainHash H e1.prev_hash (entryBody { e1 with intent := v }))
          e1.entry_hash]) ∧
    (∀ m ∈ (replayAndVerify H [e0, { e1 with intent := v }, e2]
        (Option.some e2.entry_hash)).2, mentionsEntry 1 m = true) ∧
    (∀ m ∈ (replayAndVerify H [e0, { e1 with intent := v }, e2]
        (Option.some e2.entry_hash)).2, ∀ j, 1 < j → j < 3 →
          isPrevMismatchFor j m = false) := by
  simp only [chainOk, chainedFrom, Bool.and_eq_true, beq_iff_eq] at hchain
  obtain ⟨⟨h0p, h0h⟩, ⟨h1p, h1h⟩, ⟨h2p, h2h⟩, -⟩ := hchain
  set e1' : AuditEntryData := { e1 with intent := v } with he1'
  have hprev' : e1'.prev_hash = e1.prev_hash := rfl
  have hnc : computeChainHash H e0.entry_hash (entryBody e1') ≠ e1'.entry_hash := by
    show computeChainHash H e0.entry_hash (entryBody e1') ≠ e1.entry_hash
    rw [← h1p]
    exact hnocol
  have step1 : replayLoop H genesisHash 0 [e0, e1', e2] =
      replayLoop H e0.entry_hash 1 [e1', e2] :=
    replayLoop_cons_ok H genesisHash 0 e0 [e1', e2] h0p h0h.symm
  have step2 : replayLoop H e0.entry_hash 1 [e1', e2] =
      (entryHashMismatchMsg 1 (computeChainHash H e0.entry_hash (entryBody e1'))
          e1'.entry_hash :: (replayLoop H e1'.entry_hash 2 [e2]).1,
       (replayLoop H e1'.entry_hash 2 [e2]).2) :=
    replayLoop_cons_hashMismatch H e0.entry_hash 1 e1' [e2] (hprev'.trans h1p) hnc
  have step3 : replayLoop H e1'.entry_hash 2 [e2] = replayLoop H e2.entry_hash 3 [] :=
    replayLoop_cons_ok H e1'.entry_hash 2 e2 [] h2p h2h.symm
  have hloop : replayLoop H genesisHash 0 [e0, e1', e2] =
      ([entryHashMismatchMsg 1 (computeChainHash H e0.entry_hash (entryBody e1'))
          e1'.entry_hash], e2.entry_hash) := by
    rw [step1, step2, step3]
    rfl
  have key : replayAndVerify H [e0, e1', e2] (Option.some e2.entry_hash) =
      (false,
       [entryHashMismatchMsg 1 (computeChainHash H e1.prev_hash (entryBody e1'))
          e1.entry_hash]) := by
    rw [h1p]
    simp only [replayAndVerify, hloop]
    simp
  refine ⟨key, ?_, ?_⟩
  · intro m hm
    rw [key] at hm
    have hm' : m = entryHashMismatchMsg 1
        (computeChainHash H e1.prev_hash (entryBody e1')) e1.entry_hash := by
      simpa using hm
    rw [hm']
    exact mentionsEntry_entryHashMismatchMsg 1 _ _
  · intro m hm j hj1 hj3
    rw [key] at hm
    have hm' : m = entryHashMismatchMsg 1
        (computeChainHash H e1.prev_hash (entryBody e1')) e1.entry_hash := by
      simpa using hm
    have hj2 : j = 2 := by omega
    rw [hm', hj2]
    exact isPrevMismatchFor_two_of_entryHash_one _ _

/-- Witness for the corrected C3 at the concrete three-entry ledger. -/
theorem replay_midledger_tamper_witness :
    (replayAndVerify sampleHash [sampleB0, sampleTamperedB1, sampleB2]
        (Option.some sampleB2.entry_hash)).1 = false :=
  congrArg Prod.fst
    ((replay_midledger_tamper sampleHash sampleB0 sampleB1 sampleB2 "evil"
        (by decide) (by decide) (by decide)).1)

/-- Claim C5: `StateMachine.transition` fails with a state error exactly
when the current state is terminal or the pair is absent from the §4.2
table; on success the state becomes the target, the previous state is
returned, and the counter increments by one; on failure the machine is
unchanged. -/
theorem stateMachine_transition_contract (s t : KernelState) (c : Nat) :
    (claimTransitionFails s t = true →
      (∃ msg, StateMachine.transition ⟨s, c⟩ t = (Except.error msg, ⟨s, c⟩))) ∧
    (claimTransitionFails s t = false →
      StateMachine.transition ⟨s, c⟩ t = (Except.ok s, ⟨t, c + 1⟩)) := by
  cases s <;> cases t <;>
    constructor <;>
    intro h <;>
    first
      | exact ⟨_, rfl⟩
      | rfl
      | exact absurd h (by decide)

/-- Witness for C5: a legal and an illegal transition at counter 0. -/
theorem stateMachine_transition_contract_witness :
    StateMachine.transition ⟨KernelState.IDLE, 0⟩ KernelState.VALIDATING =
      (Except.ok KernelState.IDLE, ⟨KernelState.VALIDATING, 1⟩) ∧
    (∃ msg, StateMachine.transition ⟨KernelState.HALTED, 0⟩ KernelState.IDLE =
      (Except.error msg, ⟨KernelState.HALTED, 0⟩)) :=
  ⟨(stateMachine_transition_contract KernelState.IDLE KernelState.VALIDATING 0).2
      (by decide),
   (stateMachine_transition_contract KernelState.HALTED KernelState.IDLE 0).1
      (by decide)⟩

/-- Counterexample for C6 as stated: the permissive variant's `boot`
passes the caller's `fail_closed` through, so a config constructed with
`fail_closed=False` is installed with `fail_closed=False`. -/
theorem failClosed_forced_counterexample :
    permissiveInputConfig.fail_closed = false ∧
    (permissiveBootConfig permissiveInputConfig).fail_closed = false :=
  ⟨rfl, rfl⟩

/-- Claim C6 amended: the strict, evidence-first and dual-channel boot
methods force `fail_closed` to true for every input config; the
permissive boot preserves the caller's value. -/
theorem failClosed_variant_boot (config : KernelConfig) :
    (strictBootConfig config).fail_closed = true ∧
    (evidenceFirstBootConfig config).fail_closed = true ∧
    (dualChannelBootConfig config).fail_closed = true ∧
    (permissiveBootConfig config).fail_closed = config.fail_closed :=
  ⟨rfl, rfl, rfl, rfl⟩

/-- Claim C7 (code bug): `Dispatcher.execute` coerces
`tool_call.get("params", {})` with `dict(...)` before validation and
outside any `try`, so a dict-shaped call whose `params` is not a mapping
raises an uncaught `TypeError` instead of returning an
`ExecutionResult`, contradicting the no-exception contract. -/
theorem dispatcher_params_coercion_escapes :
    executeDispatch sampleRegistry
      (.ofDict [("name", .vStr "echo"), ("params", .vInt 42)]) =
      Except.error (.typeError "\x27int\x27 object is not iterable") := rfl

theorem listTools_nodup_applyRegOp (reg : ToolRegistry) (op : RegOp)
    (h : (listTools reg).Nodup) : (listTools (applyRegOp reg op)).Nodup := by
  cases op with
  | doRegister n hd d ps =>
      by_cases hc : (reg.lookup n).isSome = true
      · simpa [applyRegOp, registerTool, hc] using h
      · have hmem : n ∉ listTools reg := by
          simp only [listTools]
          rw [← lookup_isSome_iff_mem_keys]
          simp [hc]
        simp only [listTools] at h ⊢
        simp only [applyRegOp, registerTool, hc]
        simp only [Bool.false_eq_true, if_false, List.map_append]
        rw [List.nodup_append]
        refine ⟨h, List.nodup_singleton _, ?_⟩
        intro a ha hb
        simp only [List.map_cons, List.map_nil, List.mem_singleton] at hb
        subst hb
        exact hmem (by simpa [listTools] using ha)
  | doUnregister n =>
      by_cases hc : (reg.lookup n).isNone = true
      · simpa [applyRegOp, unregisterTool, hc] using h
      · simp only [listTools] at h ⊢
        simp only [applyRegOp, unregisterTool, hc]
        simp only [Bool.false_eq_true, if_false]
        exact List.Nodup.sublist ((List.eraseP_sublist reg).map Prod.fst) h

theorem listTools_nodup_applyRegOps (ops : List RegOp) :
    ∀ (reg : ToolRegistry), (listTools reg).Nodup →
      (listTools (applyRegOps reg ops)).Nodup := by
  induction ops with
  | nil => intro reg h; exact h
  | cons op rest ih =>
      intro reg h
      exact ih _ (listTools_nodup_applyRegOp reg op h)

/-- Claim C10: `register` raises exactly when the name is taken and
`unregister` exactly when it is not, each leaving the registry unchanged
on failure; after any call sequence from the empty registry, `has`
agrees with membership in `list_tools` and with `get` returning a tool,
and `list_tools` has no duplicates. -/
theorem toolRegistry_contract :
    (∀ (reg : ToolRegistry) (n : String)
        (hd : List (String × PyValue) → Except PyExc PyValue)
        (d : String) (ps : Option (List (String × String))),
        (exceptIsOk (registerTool reg n hd d ps).1 = false ↔ hasTool reg n = true) ∧
        (exceptIsOk (registerTool reg n hd d ps).1 = false →
          (registerTool reg n hd d ps).2 = reg)) ∧
    (∀ (reg : ToolRegistry) (n : String),
        (exceptIsOk (unregisterTool reg n).1 = false ↔ hasTool reg n = false) ∧
        (exceptIsOk (unregisterTool reg n).1 = false →
          (unregisterTool reg n).2 = reg)) ∧
    (∀ (ops : List RegOp) (n : String),
        (listTools (applyRegOps [] ops)).Nodup ∧
        (hasTool (applyRegOps [] ops) n = true ↔
          n ∈ listTools (applyRegOps [] ops)) ∧
        (hasTool (applyRegOps [] ops) n = true ↔
          (getTool (applyRegOps [] ops) n).isSome = true)) := by
  refine ⟨?_, ?_, ?_⟩
  · intro reg n hd d ps
    by_cases hc : (reg.lookup n).isSome = true
    · exact ⟨by simp [registerTool, hc, exceptIsOk, hasTool],
        fun _ => by simp [registerTool, hc]⟩
    · exact ⟨by simp [registerTool, hc, exceptIsOk, hasTool],
        fun hfail => absurd hfail (by simp [registerTool, hc, exceptIsOk])⟩
  · intro reg n
    by_cases hc : (reg.lookup n).isNone = true
    · have hs : (reg.lookup n).isSome = false := by
        cases hh : reg.lookup n <;> simp_all
      exact ⟨by simp [unregisterTool, hc, exceptIsOk, hasTool, hs],
        fun _ => by simp [unregisterTool, hc]⟩
    · have hs : (reg.lookup n).isSome = true := by
        cases hh : reg.lookup n <;> simp_all
      exact ⟨by simp [unregisterTool, hc, exceptIsOk, hasTool, hs],
        fun hfail => absurd hfail (by simp [unregisterTool, hc, exceptIsOk])⟩
  · intro ops n
    refine ⟨listTools_nodup_applyRegOps ops [] (by simp [listTools]), ?_, ?_⟩
    · exact lookup_isSome_iff_mem_keys _ _
    · exact Iff.rfl

/-- Witness for C10 at a concrete registry and call sequence. -/
theorem toolRegistry_contract_witness :
    exceptIsOk (registerTool sampleRegistry "echo" echoHandler "" Option.none).1 = false ∧
    (registerTool sampleRegistry "echo" echoHandler "" Option.none).2 = sampleRegistry ∧
    (listTools (applyRegOps [] sampleRegOps)).Nodup ∧
    (hasTool (applyRegOps [] sampleRegOps) "b" = true ↔
      "b" ∈ listTools (applyRegOps [] sampleRegOps)) :=
  ⟨(toolRegistry_contract.1 sampleRegistry "echo" echoHandler "" Option.none).1.mpr rfl,
   (toolRegistry_contract.1 sampleRegistry "echo" echoHandler "" Option.none).2 rfl,
   (toolRegistry_contract.2.2 sampleRegOps "b").1,
   (toolRegistry_contract.2.2 sampleRegOps "b").2.1⟩

theorem requiredFieldMsg_inj (f g : String) (h : requiredFieldMsg f = requiredFieldMsg g) :
    f = g := by
  simp only [requiredFieldMsg] at h
  have hd := congrArg String.data h
  simp only [strDataAppend, List.append_assoc] at hd
  rw [List.append_right_inj, List.append_left_inj] at hd
  cases f
  cases g
  exact congrArg String.mk hd

theorem requiredFieldItem_eq (r : KernelRequest) (a : String) :
    (match fieldMapGet r a with
     | Option.none => Option.some (requiredFieldMsg a)
     | Option.some (.vStr s) =>
         if s.isEmpty then Option.some (requiredFieldMsg a) else Option.none
     | Option.some _ => Option.none) =
      (if requiredFieldViolates r a = true then Option.some (requiredFieldMsg a)
       else Option.none) := by
  by_cases h1 : a = "request_id"
  · subst h1; simp [fieldMapGet, requiredFieldViolates]
  by_cases h2 : a = "actor"
  · subst h2; simp [fieldMapGet, requiredFieldViolates]
  by_cases h3 : a = "intent"
  · subst h3; simp [fieldMapGet, requiredFieldViolates]
  by_cases h4 : a = "ts_ms"
  · subst h4; simp [fieldMapGet, requiredFieldViolates]
  have e1 : fieldMapGet r a = Option.none := by
    unfold fieldMapGet
    split <;> simp_all
  have e2 : requiredFieldViolates r a = true := by
    unfold requiredFieldViolates
    split <;> simp_all
  rw [e1, e2]
  simp

/-- Counterexample for C8 as stated: `evidence` is a request field,
present and non-empty here, yet requiring it yields a violation because
the checker's `field_map` only covers request_id/actor/intent/ts_ms. -/
theorem requiredFields_counterexample :
    evidenceRequestC8.evidence = Option.some "ok" ∧ ("ok" : String) ≠ "" ∧
    checkRequiredFields evidenceRequestC8 evidencePolicyC8 =
      [requiredFieldMsg "evidence"] :=
  ⟨rfl, by decide, rfl⟩

/-- Claim C8 amended: a required-field violation for `f` is reported
exactly when `f` is required and either maps to an empty string among
the four mapped attributes (request_id, actor, intent; ts_ms, an
integer, never violates) or is any other name — even one matching a
present, non-empty request field such as `evidence`.  `allowed` is true
exactly when the accumulated violation list is empty. -/
theorem requiredFields_amended (r : KernelRequest) (p : JurisdictionPolicy) (f : String) :
    (requiredFieldMsg f ∈ checkRequiredFields r p ↔
      f ∈ p.required_fields ∧ requiredFieldViolates r f = true) ∧
    ((evaluatePolicy r p).allowed = true ↔ (evaluatePolicy r p).violations = []) := by
  constructor
  · unfold checkRequiredFields
    rw [List.mem_filterMap]
    constructor
    · rintro ⟨a, ha, hm⟩
      rw [requiredFieldItem_eq] at hm
      by_cases hb : requiredFieldViolates r a = true
      · rw [if_pos hb] at hm
        have heq := requiredFieldMsg_inj a f (Option.some.inj hm)
        subst heq
        exact ⟨ha, hb⟩
      · rw [if_neg hb] at hm
        exact absurd hm (by simp)
    · rintro ⟨hf, hb⟩
      refine ⟨f, hf, ?_⟩
      rw [requiredFieldItem_eq, if_pos hb]
  · unfold evaluatePolicy
    simp [List.length_eq_zero]

/-- Witness for the amended C8: an empty actor under a policy requiring
`actor`. -/
theorem requiredFields_amended_witness :
    requiredFieldMsg "actor" ∈ checkRequiredFields emptyActorRequestC8 actorPolicyC8 ∧
    ((evaluatePolicy emptyActorRequestC8 actorPolicyC8).allowed = true ↔
      (evaluatePolicy emptyActorRequestC8 actorPolicyC8).violations = []) :=
  ⟨(requiredFields_amended emptyActorRequestC8 actorPolicyC8 "actor").1.mpr
      ⟨by decide, by decide⟩,
   (requiredFields_amended emptyActorRequestC8 actorPolicyC8 "actor").2⟩

theorem constraintKeyOk_iff (kvs : List (String × PyValue)) (k : String) :
    constraintKeyOk kvs k = true ↔
      (k ∈ kvs.map Prod.fst ∧ constraintKeyErr kvs k = Option.none) := by
  rw [← lookup_isSome_iff_mem_keys]
  cases hl : kvs.lookup k with
  | none => simp [constraintKeyOk, constraintKeyErr, hl]
  | some v =>
      cases v with
      | vNone => simp [constraintKeyOk, constraintKeyErr, hl]
      | vBool b => simp [constraintKeyOk, constraintKeyErr, hl]
      | vInt n => simp [constraintKeyOk, constraintKeyErr, hl]
      | vDict kvs₂ => simp [constraintKeyOk, constraintKeyErr, hl]
      | vStr s =>
          by_cases hs : (pyStrip s).isEmpty = true <;>
            simp [constraintKeyOk, constraintKeyErr, hl, hs]

/-- Counterexample for C9 as stated: every required constraint key is
present and non-empty, but `scope` holds an integer, not a string; the
code accepts it while the claim demands a violation. -/
theorem dualChannel_counterexample :
    dualChannelCheck dualChannelBadRequest = [] ∧
    dualChannelSpecOk dualChannelBadRequest = false := by
  constructor <;> decide

/-- Claim C9 amended: the dual-channel check returns no violations
exactly when `request.params` holds a `constraints` dictionary
containing all of scope, non_goals and success_criteria, where each of
those keys maps to a value that is neither `None` nor an
empty/whitespace string — values of non-string types are accepted. -/
theorem dualChannel_amended (r : KernelRequest) :
    dualChannelCheck r = [] ↔ dualChannelAcceptable r = true := by
  unfold dualChannelCheck dualChannelAcceptable
  cases hp : r.params with
  | none => simp [hp]
  | some params =>
      try simp only [hp]
      cases hc : params.lookup "constraints" with
      | none => simp [hc]
      | some v =>
          try simp only [hc]
          cases v with
          | vNone => simp
          | vBool b => simp
          | vInt n => simp
          | vStr s => simp
          | vDict kvs =>
              have hm : ((if ((["non_goals", "scope", "success_criteria"] :
                    List String).filter
                      (fun k => !(kvs.map Prod.fst).contains k)).isEmpty then
                    ([] : List String)
                  else ["Missing required constraint keys: " ++
                    String.intercalate ", "
                      ((["non_goals", "scope", "success_criteria"] :
                        List String).filter
                        (fun k => !(kvs.map Prod.fst).contains k))]) = [] ↔
                  ("non_goals" ∈ kvs.map Prod.fst ∧ "scope" ∈ kvs.map Prod.fst ∧
                    "success_criteria" ∈ kvs.map Prod.fst)) := by
                by_cases m1 : "non_goals" ∈ kvs.map Prod.fst <;>
                  by_cases m2 : "scope" ∈ kvs.map Prod.fst <;>
                    by_cases m3 : "success_criteria" ∈ kvs.map Prod.fst <;>
                      simp [List.filter, m1, m2, m3]
              have he : ((["scope", "non_goals", "success_criteria"] :
                    List String).filterMap (constraintKeyErr kvs) = [] ↔
                  (constraintKeyErr kvs "scope" = Option.none ∧
                    constraintKeyErr kvs "non_goals" = Option.none ∧
                    constraintKeyErr kvs "success_criteria" = Option.none)) := by
                cases e1 : constraintKeyErr kvs "scope" <;>
                  cases e2 : constraintKeyErr kvs "non_goals" <;>
                    cases e3 : constraintKeyErr kvs "success_criteria" <;>
                      simp [List.filterMap, e1, e2, e3]
              have ha : ((["scope", "non_goals", "success_criteria"] :
                    List String).all (constraintKeyOk kvs) = true ↔
                  (constraintKeyOk kvs "scope" = true ∧
                    constraintKeyOk kvs "non_goals" = true ∧
                    constraintKeyOk kvs "success_criteria" = true)) := by
                simp [List.all_cons, List.all_nil, Bool.and_eq_true]
              rw [List.append_eq_nil, hm, he, ha,
                constraintKeyOk_iff, constraintKeyOk_iff, constraintKeyOk_iff]
              tauto

/-- Witness for the amended C9: a request with all three constraint
keys as non-empty strings passes the check. -/
theorem dualChannel_amended_witness :
    dualChannelCheck dualChannelGoodRequest = [] :=
  (dualChannel_amended dualChannelGoodRequest).mpr (by decide)

end Kernels
